import Mathlib

/-
Verification of the real-time suggestion coordination core of the Stella.Ai
repository.  The embedding models, from the source:

* `LiveHook` — the `useLiveSuggestions` hook (use-live-suggestions):
  debounced scheduling, AbortController-based supersession, commit of
  responses, accept / hide / navigate operations.

* `RealtimeHook` — the `useRealtimeSuggestions` hook: the paragraph-keyed
  suggestion map, its single shared debounce timer and abort controller,
  and the fetch / accept / reject / clear / apply operations.

* `WritingAPI` — the fetch options constructed by `WritingAPI.request` and
  `getLiveSuggestions` (lib/api.js).

* `EditorMerge` — the text merge performed by `handleAcceptSuggestion` in the
  paragraph-scoped editor, and the `onUpdate` minimum-length gate of the
  live editor.

Asynchrony is modelled by an explicit event system: a state machine stepped by
timed actions (schedule a fetch, a pending debounce timer firing, a network
response resolving).  Event lists represent the single-threaded event-loop
interleavings of the JavaScript runtime.
-/

namespace Stella

/-- JavaScript truthiness of a nullable string: `null`/`undefined` (`none`)
and the empty string are falsy, every other string is truthy. -/
def jsTruthy : Option String → Bool
  | none => false
  | some s => !(s == "")

/-- JavaScript `t.trim()`: the string with leading and trailing whitespace
removed. -/
def jsTrim (t : String) : String :=
  ⟨((t.data.dropWhile Char.isWhitespace).reverse.dropWhile Char.isWhitespace).reverse⟩

/-- JavaScript `t.endsWith(" ")`: whether the last character is a space. -/
def endsWithSpace (t : String) : Bool :=
  match t.data.getLast? with
  | some c => c == ' '
  | none => false

namespace LiveHook

/-- The debounce window of `fetchLiveSuggestions` (500 ms). -/
def liveDebounceMs : Nat := 500

/-- A pending `setTimeout` installed by `fetchLiveSuggestions`: the captured
text and cursor, and the instant at which the timeout is due. -/
structure LiveTimer where
  text : String
  cursor : Option Nat
  firesAt : Nat
  deriving DecidableEq

/-- An in-flight call to `writingApi.getLiveSuggestions`, tagged with the id
of the `AbortController` created for it. -/
structure LiveRequest where
  ctrlId : Nat
  text : String
  cursor : Option Nat
  deriving DecidableEq

/-- The state held by one instance of the `useLiveSuggestions` hook:
the React state cells (`suggestions`, `isLoading`, `showSuggestions`,
`selectedSuggestionIndex`), the two refs (`debounceTimeoutRef`,
`abortControllerRef`), plus the environment's view of which controllers have
been aborted, which transport calls are still outstanding, and a counter
supplying fresh controller ids. -/
structure LiveState where
  userId : Option String
  suggestions : List String
  isLoading : Bool
  showSuggestions : Bool
  selectedSuggestionIndex : Nat
  pendingTimer : Option LiveTimer
  abortCtrl : Option Nat
  abortedCtrls : List Nat
  inFlight : List LiveRequest
  nextCtrlId : Nat
  deriving DecidableEq

/-- The initial hook state: empty suggestion list, no timer, no controller. -/
def initLiveState (userId : Option String) : LiveState :=
  { userId := userId
    suggestions := []
    isLoading := false
    showSuggestions := false
    selectedSuggestionIndex := 0
    pendingTimer := none
    abortCtrl := none
    abortedCtrls := []
    inFlight := []
    nextCtrlId := 0 }

/-- `fetchLiveSuggestions(currentText, cursorPosition)` up to installing the
debounce timeout: bail out when `userId` is falsy, clear any previous
timeout, call `.abort()` on the controller currently in `abortControllerRef`
(which the environment records in `abortedCtrls`), and install a fresh
500 ms timeout capturing the given text and cursor. -/
def fetchLiveSuggestions (s : LiveState) (currentText : String)
    (cursorPosition : Option Nat) (now : Nat) : LiveState :=
  if jsTruthy s.userId then
    { s with
      pendingTimer := some ⟨currentText, cursorPosition, now + liveDebounceMs⟩
      abortedCtrls :=
        match s.abortCtrl with
        | some c => c :: s.abortedCtrls
        | none => s.abortedCtrls }
  else s

/-- The body of the debounce timeout, run when the timer is due and has not
been cleared: set `isLoading`, create a fresh `AbortController`, store it in
`abortControllerRef`, and start the `getLiveSuggestions` transport call. -/
def fireDebounceTimer (s : LiveState) (now : Nat) : LiveState :=
  match s.pendingTimer with
  | none => s
  | some t =>
    if t.firesAt ≤ now then
      { s with
        pendingTimer := none
        isLoading := true
        abortCtrl := some s.nextCtrlId
        inFlight := s.inFlight ++ [⟨s.nextCtrlId, t.text, t.cursor⟩]
        nextCtrlId := s.nextCtrlId + 1 }
    else s

/-- The JSON body answered by the `/live_suggestions` endpoint, as read by
the hook (`response.suggestions`, possibly absent). -/
structure LiveResponse where
  suggestions : Option (List String)
  deriving DecidableEq

/-- How an awaited `getLiveSuggestions` call comes back: a parsed response,
an `AbortError` rejection, or any other (transport) failure. -/
inductive LiveOutcome where
  | ok (resp : LiveResponse)
  | abortError
  | fail (message : String)
  deriving DecidableEq

/-- The continuation of the timeout body after `await`, including the
`catch`/`finally` clauses: an aborted controller makes a successful response
return early; otherwise the response is committed
(`setSuggestions`/`setSelectedSuggestionIndex`/`setShowSuggestions`);
an `AbortError` is ignored; any other error empties and hides the
suggestions; `finally` always clears `isLoading`. -/
def resolveRequest (s : LiveState) (req : LiveRequest) (outcome : LiveOutcome) :
    LiveState :=
  if req ∈ s.inFlight then
    let s1 := { s with inFlight := s.inFlight.erase req }
    match outcome with
    | LiveOutcome.ok resp =>
      if req.ctrlId ∈ s1.abortedCtrls then
        { s1 with isLoading := false }
      else
        { s1 with
          suggestions := resp.suggestions.getD []
          selectedSuggestionIndex := 0
          showSuggestions :=
            match resp.suggestions with
            | none => false
            | some l => decide (0 < l.length)
          isLoading := false }
    | LiveOutcome.abortError => { s1 with isLoading := false }
    | LiveOutcome.fail _ =>
      { s1 with suggestions := [], showSuggestions := false, isLoading := false }
  else s

/-- `hideSuggestions()`: hide the overlay, drop the items, reset the
selection. -/
def hideSuggestions (s : LiveState) : LiveState :=
  { s with showSuggestions := false, suggestions := [], selectedSuggestionIndex := 0 }

/-- `acceptSuggestion(index)`: pick the item at `index` (default
`selectedSuggestionIndex`); when it is a (truthy) item, hide and clear the
set and return it, otherwise return `null` leaving the state unchanged. -/
def acceptSuggestion (s : LiveState) (index : Option Nat) :
    Option String × LiveState :=
  let suggestionIndex := index.getD s.selectedSuggestionIndex
  match s.suggestions[suggestionIndex]? with
  | some sugg => if sugg == "" then (none, s) else (some sugg, hideSuggestions s)
  | none => (none, s)

/-- `navigateSuggestions(direction)`: move the selection with wraparound;
`up` is previous, `down` is next; a no-op on an empty list. -/
def navigateSuggestions (s : LiveState) (direction : String) : LiveState :=
  if s.suggestions.length = 0 then s
  else if direction = "up" then
    { s with
      selectedSuggestionIndex :=
        if 0 < s.selectedSuggestionIndex then s.selectedSuggestionIndex - 1
        else s.suggestions.length - 1 }
  else if direction = "down" then
    { s with
      selectedSuggestionIndex :=
        if s.selectedSuggestionIndex < s.suggestions.length - 1 then
          s.selectedSuggestionIndex + 1
        else 0 }
  else s

/-- An event-loop action touching one live hook instance. -/
inductive LiveAction where
  | schedule (text : String) (cursor : Option Nat)
  | fire
  | resolve (req : LiveRequest) (outcome : LiveOutcome)
  deriving DecidableEq

/-- One event-loop step at instant `now`. -/
def liveStepAt (s : LiveState) (now : Nat) : LiveAction → LiveState
  | LiveAction.schedule text cursor => fetchLiveSuggestions s text cursor now
  | LiveAction.fire => fireDebounceTimer s now
  | LiveAction.resolve req outcome => resolveRequest s req outcome

/-- Run a timed event trace. -/
def liveRun (s : LiveState) (tr : List (Nat × LiveAction)) : LiveState :=
  tr.foldl (fun s e => liveStepAt s e.1 e.2) s

end LiveHook

namespace WritingAPI

/-- The option object handed to `fetch`: method, body, headers and (if any)
an attached `AbortSignal`, identified by its controller id. -/
structure FetchOptions where
  method : Option String
  body : Option String
  headers : List (String × String)
  signal : Option Nat
  deriving DecidableEq

/-- `WritingAPI.request(endpoint, options)`: the options passed on to
`fetch` — the json content type header merged with whatever the caller
supplied; every other field is forwarded unchanged. -/
def request (options : FetchOptions) : FetchOptions :=
  { options with headers := ("Content-Type", "application/json") :: options.headers }

/-- `getLiveSuggestions(requestData)`: a POST of the serialized request data.
No `signal` key is ever put in the options. -/
def getLiveSuggestions (body : String) : FetchOptions :=
  request { method := some "POST", body := some body, headers := [], signal := none }

end WritingAPI

namespace RealtimeHook

/-- The debounce window of the realtime hook's `fetchSuggestions` (500 ms). -/
def realtimeDebounceMs : Nat := 500

/-- JavaScript `a || b` on nullable strings: the fallback is used when the
value is `null`/`undefined` or the empty string (both falsy). -/
def jsOrStr (v : Option String) (fallback : String) : String :=
  match v with
  | some s => if s.isEmpty then fallback else s
  | none => fallback

/-- One value of the paragraph-keyed `suggestions` map: the fields written by
the success and failure branches of `fetchSuggestions`, and the markers added
by `acceptSuggestion` / `rejectSuggestion` / `applySuggestion`.  Plot
insights are an opaque payload, modelled as a key/value list. -/
structure ParaEntry where
  suggestions : List String
  suggestionType : Option String
  confidenceScore : Option Rat
  contextUsed : Option String
  plotInsights : List (String × String)
  error : Option String
  acceptedSuggestion : Option Nat
  acceptedAt : Option Nat
  rejectedSuggestions : List Nat
  appliedSuggestion : Option Nat
  appliedAt : Option Nat
  timestamp : Nat
  deriving DecidableEq

/-- The JSON body answered by `/enhanced_auto_suggest`, as read by the hook
(every field possibly absent). -/
structure EnhancedResponse where
  text_suggestions : Option (List String)
  suggestion_type : Option String
  confidence_score : Option Rat
  context_used : Option String
  plot_insights : Option (List (String × String))
  deriving DecidableEq

/-- The single pending debounce timeout of the hook (`debounceTimeoutRef`):
note it is not keyed by paragraph. -/
structure RTTimer where
  paragraphId : String
  text : String
  cursor : Option Nat
  firesAt : Nat
  deriving DecidableEq

/-- An in-flight `getEnhancedAutoSuggestions` call. -/
structure RTRequest where
  ctrlId : Nat
  paragraphId : String
  text : String
  cursor : Option Nat
  deriving DecidableEq

/-- The state of one `useRealtimeSuggestions` instance: the paragraph-keyed
`suggestions` object (as an ordered key/value list), `isLoading` and `error`
state cells, the single shared `debounceTimeoutRef` and `lastRequestRef`,
and the environment's bookkeeping of aborted controllers, outstanding calls
and fresh controller ids. -/
structure RTState where
  userId : Option String
  sessionId : Option String
  suggestions : List (String × ParaEntry)
  isLoading : Bool
  error : Option String
  pendingTimer : Option RTTimer
  lastRequest : Option Nat
  abortedCtrls : List Nat
  inFlight : List RTRequest
  nextCtrlId : Nat
  deriving DecidableEq

/-- The initial hook state. -/
def initRTState (userId sessionId : Option String) : RTState :=
  { userId := userId
    sessionId := sessionId
    suggestions := []
    isLoading := false
    error := none
    pendingTimer := none
    lastRequest := none
    abortedCtrls := []
    inFlight := []
    nextCtrlId := 0 }

/-- Lookup in the paragraph-keyed object. -/
def getEntry : List (String × ParaEntry) → String → Option ParaEntry
  | [], _ => none
  | (k2, v) :: rest, k => if k2 = k then some v else getEntry rest k

/-- `{...prev, [k]: v}`: replace the entry at `k`, or append it. -/
def setEntry : List (String × ParaEntry) → String → ParaEntry → List (String × ParaEntry)
  | [], k, v => [(k, v)]
  | (k2, v2) :: rest, k, v =>
    if k2 = k then (k, v) :: rest else (k2, v2) :: setEntry rest k v

/-- `delete obj[k]`. -/
def removeEntry : List (String × ParaEntry) → String → List (String × ParaEntry)
  | [], _ => []
  | (k2, v) :: rest, k =>
    if k2 = k then removeEntry rest k else (k2, v) :: removeEntry rest k

/-- `fetchSuggestions(paragraphId, text, cursorPosition)` up to installing
the debounce timeout: bail out on blank text or a falsy `userId`/`sessionId`,
clear the (single, shared) previous timeout and install a fresh 500 ms
timeout capturing paragraph id, text and cursor. -/
def fetchSuggestions (s : RTState) (paragraphId text : String)
    (cursorPosition : Option Nat) (now : Nat) : RTState :=
  if jsTrim text == "" || !jsTruthy s.userId || !jsTruthy s.sessionId then s
  else
    { s with
      pendingTimer := some ⟨paragraphId, text, cursorPosition, now + realtimeDebounceMs⟩ }

/-- The body of the realtime debounce timeout, up to `await`: set
`isLoading`, reset `error`, call `.abort()` on the controller in
`lastRequestRef`, create a fresh controller and start the transport call. -/
def fireRTTimer (s : RTState) (now : Nat) : RTState :=
  match s.pendingTimer with
  | none => s
  | some t =>
    if t.firesAt ≤ now then
      { s with
        pendingTimer := none
        isLoading := true
        error := none
        abortedCtrls :=
          match s.lastRequest with
          | some c => c :: s.abortedCtrls
          | none => s.abortedCtrls
        lastRequest := some s.nextCtrlId
        inFlight := s.inFlight ++ [⟨s.nextCtrlId, t.paragraphId, t.text, t.cursor⟩]
        nextCtrlId := s.nextCtrlId + 1 }
    else s

/-- How an awaited `getEnhancedAutoSuggestions` call comes back. -/
inductive RTOutcome where
  | ok (resp : EnhancedResponse)
  | abortError
  | fail (message : String)
  deriving DecidableEq

/-- The map entry written by the success branch of `fetchSuggestions`. -/
def successEntry (resp : EnhancedResponse) (now : Nat) : ParaEntry :=
  { suggestions := resp.text_suggestions.getD []
    suggestionType := some (jsOrStr resp.suggestion_type "continuation")
    confidenceScore := some (resp.confidence_score.getD 0)
    contextUsed := some (jsOrStr resp.context_used "")
    plotInsights := (resp.plot_insights.getD [])
    error := none
    acceptedSuggestion := none
    acceptedAt := none
    rejectedSuggestions := []
    appliedSuggestion := none
    appliedAt := none
    timestamp := now }

/-- The map entry written by the failure branch of `fetchSuggestions`:
an empty suggestion list tagged with the error message. -/
def failureEntry (message : String) (now : Nat) : ParaEntry :=
  { suggestions := []
    suggestionType := none
    confidenceScore := none
    contextUsed := none
    plotInsights := []
    error := some message
    acceptedSuggestion := none
    acceptedAt := none
    rejectedSuggestions := []
    appliedSuggestion := none
    appliedAt := none
    timestamp := now }

/-- The continuation of the realtime timeout body after `await`, with its
`catch`/`finally` clauses.  The handler is total: every outcome is turned
into a state update, none is re-thrown.  A successful response whose
controller was aborted returns early; an `AbortError` rejection is ignored;
any other failure sets the `error` cell and stores an empty, error-tagged
entry for the paragraph; `finally` always clears `isLoading`. -/
def resolveRequest (s : RTState) (req : RTRequest) (outcome : RTOutcome)
    (now : Nat) : RTState :=
  if req ∈ s.inFlight then
    let s1 := { s with inFlight := s.inFlight.erase req }
    match outcome with
    | RTOutcome.ok resp =>
      if req.ctrlId ∈ s1.abortedCtrls then
        { s1 with isLoading := false }
      else
        { s1 with
          suggestions := setEntry s1.suggestions req.paragraphId (successEntry resp now)
          isLoading := false }
    | RTOutcome.abortError => { s1 with isLoading := false }
    | RTOutcome.fail msg =>
      { s1 with
        error := some msg
        suggestions := setEntry s1.suggestions req.paragraphId (failureEntry msg now)
        isLoading := false }
  else s

/-- `getSuggestions(paragraphId)`: the stored entry, or `null`. -/
def getSuggestions (s : RTState) (paragraphId : String) : Option ParaEntry :=
  getEntry s.suggestions paragraphId

/-- `clearSuggestions(paragraphId)`: delete the entry. -/
def clearSuggestions (s : RTState) (paragraphId : String) : RTState :=
  { s with suggestions := removeEntry s.suggestions paragraphId }

/-- `acceptSuggestion(paragraphId, suggestionIndex)`: mark the entry as
accepted (the set itself is kept). -/
def acceptSuggestion (s : RTState) (paragraphId : String) (suggestionIndex : Nat)
    (now : Nat) : RTState :=
  match getEntry s.suggestions paragraphId with
  | none => s
  | some e =>
    { s with
      suggestions := setEntry s.suggestions paragraphId
        { e with acceptedSuggestion := some suggestionIndex, acceptedAt := some now } }

/-- `rejectSuggestion(paragraphId, suggestionIndex)`: drop the item at that
index and record the index as rejected. -/
def rejectSuggestion (s : RTState) (paragraphId : String) (suggestionIndex : Nat) :
    RTState :=
  match getEntry s.suggestions paragraphId with
  | none => s
  | some e =>
    { s with
      suggestions := setEntry s.suggestions paragraphId
        { e with
          suggestions := e.suggestions.eraseIdx suggestionIndex
          rejectedSuggestions := e.rejectedSuggestions ++ [suggestionIndex] } }

/-- `applySuggestion(paragraphId, suggestionIndex, originalText)`: build the
applied text and mark the entry; a missing entry or a falsy item leaves the
text and state unchanged. -/
def applySuggestion (s : RTState) (paragraphId : String) (suggestionIndex : Nat)
    (originalText : String) (now : Nat) : String × RTState :=
  match getEntry s.suggestions paragraphId with
  | none => (originalText, s)
  | some e =>
    match e.suggestions[suggestionIndex]? with
    | none => (originalText, s)
    | some sugg =>
      if sugg == "" then (originalText, s)
      else
        (originalText ++ "\n\n[AI Suggestion Applied: " ++ sugg ++ "]",
         { s with
           suggestions := setEntry s.suggestions paragraphId
             { e with appliedSuggestion := some suggestionIndex, appliedAt := some now } })

/-- An event-loop action touching one realtime hook instance. -/
inductive RTAction where
  | schedule (paragraphId text : String) (cursor : Option Nat)
  | fire
  | resolve (req : RTRequest) (outcome : RTOutcome)
  deriving DecidableEq

/-- One event-loop step at instant `now`. -/
def rtStepAt (s : RTState) (now : Nat) : RTAction → RTState
  | RTAction.schedule paragraphId text cursor => fetchSuggestions s paragraphId text cursor now
  | RTAction.fire => fireRTTimer s now
  | RTAction.resolve req outcome => resolveRequest s req outcome now

/-- Run a timed event trace. -/
def rtRun (s : RTState) (tr : List (Nat × RTAction)) : RTState :=
  tr.foldl (fun s e => rtStepAt s e.1 e.2) s

end RealtimeHook

namespace EditorMerge

/-- The text merge performed by `handleAcceptSuggestion` in the
paragraph-scoped editor: append the accepted suggestion text to the
paragraph text, inserting a separating space when the paragraph text is
nonempty and does not end with a space character. -/
def applyAccepted (suggestionText currentText : String) : String :=
  let needsSpace := decide (0 < currentText.length) && !(endsWithSpace currentText)
  currentText ++ (if needsSpace then " " else "") ++ suggestionText

/-- Whether a string ends in any whitespace character. -/
def endsInWhitespace (t : String) : Bool :=
  match t.data.getLast? with
  | none => false
  | some ch => ch.isWhitespace

/-- Modelled from the spec's words, for comparison with `applyAccepted`
(refinement check): apply inserts the separating space exactly when the
target text is nonempty and does not already end in whitespace. -/
def applySpec (suggestionText targetText : String) : String :=
  let needsSpace := decide (0 < targetText.length) && !(endsInWhitespace targetText)
  targetText ++ (if needsSpace then " " else "") ++ suggestionText

/-- The `onUpdate` handler of the live editor, gating the live-suggestion
fetch: it fires only when the trimmed text is longer than 2 characters and
the (effective) user id is truthy. -/
def editorOnUpdate (s : LiveHook.LiveState) (text : String) (cursorPosition : Nat)
    (now : Nat) : LiveHook.LiveState :=
  if decide (2 < (jsTrim text).length) && jsTruthy s.userId then
    LiveHook.fetchLiveSuggestions s text (some cursorPosition) now
  else s

end EditorMerge

namespace LiveHook

/-- A recorded `fetchLiveSuggestions` call: its captured text and cursor and
the instant of the call. -/
structure ScheduleCall where
  text : String
  cursor : Option Nat
  time : Nat
  deriving DecidableEq

/-- The last schedule action of a trace, if any. -/
def lastScheduled : List (Nat × LiveAction) → Option ScheduleCall
  | [] => none
  | (t, LiveAction.schedule x c) :: rest =>
    match lastScheduled rest with
    | some r => some r
    | none => some ⟨x, c, t⟩
  | _ :: rest => lastScheduled rest

/-- A burst of event-loop activity relative to a pending debounce deadline:
every event happens strictly before the current deadline (so a due-timer
check never succeeds), each schedule call moves the deadline to its own
time plus the debounce window, and no response resolves meanwhile.  This is
the claim's premise that every call occurs before the previous call's
quiescence window elapses. -/
def BurstFrom : Nat → List (Nat × LiveAction) → Bool
  | _, [] => true
  | deadline, (t, LiveAction.fire) :: rest =>
    decide (t < deadline) && BurstFrom deadline rest
  | deadline, (t, LiveAction.schedule _ _) :: rest =>
    decide (t < deadline) && BurstFrom (t + liveDebounceMs) rest
  | _, (_, LiveAction.resolve _ _) :: _ => false

/-- Bookkeeping invariant of the live hook, maintained by every event-loop
step: controller ids are allocated below `nextCtrlId`; every allocated
controller is either already aborted or is the one currently held in
`abortControllerRef`; the held controller is at least as recent as every
outstanding request; and while a debounce timeout is pending the held
controller has already been aborted (it was aborted when the timeout was
installed). -/
def LiveInv (s : LiveState) : Prop :=
  (∀ r ∈ s.inFlight, r.ctrlId < s.nextCtrlId)
  ∧ (∀ c, s.abortCtrl = some c → c < s.nextCtrlId)
  ∧ (∀ i, i < s.nextCtrlId → i ∈ s.abortedCtrls ∨ s.abortCtrl = some i)
  ∧ (∀ r ∈ s.inFlight, ∃ c, s.abortCtrl = some c ∧ r.ctrlId ≤ c)
  ∧ (s.pendingTimer ≠ none → ∀ c, s.abortCtrl = some c → c ∈ s.abortedCtrls)

/-- A run in which a first request is issued, superseded by a second
schedule call, and the second request is issued too, leaving both transport
calls outstanding. -/
def twoRequestTrace : List (Nat × LiveAction) :=
  [(0, LiveAction.schedule "Hello there" (some 5)),
   (500, LiveAction.fire),
   (600, LiveAction.schedule "Hello there fr" (some 7)),
   (1100, LiveAction.fire)]

/-- `twoRequestTrace` followed by the stale first response resolving while
the second request is still outstanding. -/
def staleResolveTrace : List (Nat × LiveAction) :=
  twoRequestTrace ++
    [(1200, LiveAction.resolve ⟨0, "Hello there", some 5⟩
      (LiveOutcome.ok ⟨some ["alpha"]⟩))]

/-- A run in which a request is issued and then superseded by a new schedule
call: its controller is aborted, yet its transport call stays outstanding. -/
def abortedButOutstandingTrace : List (Nat × LiveAction) :=
  [(0, LiveAction.schedule "Hello there" (some 5)),
   (500, LiveAction.fire),
   (600, LiveAction.schedule "Hello there fr" (some 7))]

/-- The first request issued along `twoRequestTrace`. -/
def firstRequest : LiveRequest := ⟨0, "Hello there", some 5⟩

/-- The second request issued along `twoRequestTrace`. -/
def secondRequest : LiveRequest := ⟨1, "Hello there fr", some 7⟩

/-- The state reached by `twoRequestTrace`. -/
def twoRequestState : LiveState := liveRun (initLiveState (some "u")) twoRequestTrace

/-- A burst of two further schedule calls (with a spurious due-check in
between), each arriving inside the previous call's debounce window. -/
def burstTrace : List (Nat × LiveAction) :=
  [(200, LiveAction.schedule "Hello w" (some 7)),
   (300, LiveAction.fire),
   (400, LiveAction.schedule "Hello wo" (some 8))]

/-- A hook state holding two suggestions with the second one selected. -/
def acceptState : LiveState :=
  { initLiveState (some "u") with
    suggestions := ["alpha", "beta"]
    selectedSuggestionIndex := 1 }

/-- A hook state holding three suggestions with the first one selected. -/
def navState : LiveState :=
  { initLiveState (some "u") with suggestions := ["a", "b", "c"] }

end LiveHook

namespace RealtimeHook

/-- Two schedule calls for distinct paragraphs, the second arriving while
the first paragraph's debounce timer is still pending. -/
def twoParagraphTimerTrace : List (Nat × RTAction) :=
  [(0, RTAction.schedule "A" "Paragraph A text" none),
   (600, RTAction.schedule "B" "Paragraph B text" none)]

/-- Paragraph A's request is issued and still in flight when paragraph B's
request fires. -/
def twoParagraphAbortTrace : List (Nat × RTAction) :=
  [(0, RTAction.schedule "A" "Paragraph A text" none),
   (500, RTAction.fire),
   (600, RTAction.schedule "B" "Paragraph B text" none),
   (1100, RTAction.fire)]

/-- A concrete stored entry holding one suggestion. -/
def sampleEntry : ParaEntry :=
  { suggestions := ["alpha"]
    suggestionType := some "continuation"
    confidenceScore := none
    contextUsed := none
    plotInsights := []
    error := none
    acceptedSuggestion := none
    acceptedAt := none
    rejectedSuggestions := []
    appliedSuggestion := none
    appliedAt := none
    timestamp := 7 }

/-- A hook state whose store holds `sampleEntry` for paragraph `p1`. -/
def sampleState : RTState :=
  { initRTState (some "u") (some "sess") with suggestions := [("p1", sampleEntry)] }

/-- `sampleState` with one outstanding request whose controller has been
aborted. -/
def inFlightState : RTState :=
  { sampleState with
    inFlight := [⟨0, "p1", "Some paragraph", none⟩]
    abortedCtrls := [0] }

end RealtimeHook

namespace RealtimeHook

theorem getEntry_setEntry_self (m : List (String × ParaEntry)) (k : String)
    (v : ParaEntry) : getEntry (setEntry m k v) k = some v := by
  induction m with
  | nil => simp [setEntry, getEntry]
  | cons p rest ih =>
    obtain ⟨pk, pv⟩ := p
    by_cases hk : pk = k
    · simp [setEntry, getEntry, hk]
    · simp [setEntry, getEntry, hk, ih]

theorem getEntry_setEntry_ne (m : List (String × ParaEntry)) (k k2 : String)
    (v : ParaEntry) (h : k ≠ k2) :
    getEntry (setEntry m k v) k2 = getEntry m k2 := by
  induction m with
  | nil => simp [setEntry, getEntry, h]
  | cons p rest ih =>
    obtain ⟨pk, pv⟩ := p
    by_cases hk : pk = k
    · subst hk
      simp [setEntry, getEntry, h]
    · simp [setEntry, getEntry, hk, ih]

theorem getEntry_removeEntry_ne (m : List (String × ParaEntry)) (k k2 : String)
    (h : k ≠ k2) : getEntry (removeEntry m k) k2 = getEntry m k2 := by
  induction m with
  | nil => simp [removeEntry, getEntry]
  | cons p rest ih =>
    obtain ⟨pk, pv⟩ := p
    by_cases hk : pk = k
    · subst hk
      simp [removeEntry, getEntry, h, ih]
    · simp [removeEntry, getEntry, hk, ih]

end RealtimeHook

namespace LiveHook

/-- Resolving a request whose controller was aborted: the response is
discarded, only `finally` runs. -/
theorem resolveRequest_ok_stale (s : LiveState) (req : LiveRequest)
    (resp : LiveResponse) (hm : req ∈ s.inFlight)
    (ha : req.ctrlId ∈ s.abortedCtrls) :
    resolveRequest s req (LiveOutcome.ok resp)
      = { s with inFlight := s.inFlight.erase req, isLoading := false } := by
  unfold resolveRequest
  rw [if_pos hm]
  dsimp only
  rw [if_pos ha]

/-- Resolving a request whose controller is still current: the response is
committed. -/
theorem resolveRequest_ok_current (s : LiveState) (req : LiveRequest)
    (resp : LiveResponse) (hm : req ∈ s.inFlight)
    (ha : req.ctrlId ∉ s.abortedCtrls) :
    resolveRequest s req (LiveOutcome.ok resp)
      = { s with
          inFlight := s.inFlight.erase req
          suggestions := resp.suggestions.getD []
          selectedSuggestionIndex := 0
          showSuggestions :=
            match resp.suggestions with
            | none => false
            | some l => decide (0 < l.length)
          isLoading := false } := by
  unfold resolveRequest
  rw [if_pos hm]
  dsimp only
  rw [if_neg ha]

/-- A stale resolution leaves the committed suggestion list unchanged. -/
theorem resolveRequest_stale_suggestions (s : LiveState) (req : LiveRequest)
    (resp : LiveResponse) (hm : req ∈ s.inFlight)
    (ha : req.ctrlId ∈ s.abortedCtrls) :
    (resolveRequest s req (LiveOutcome.ok resp)).suggestions = s.suggestions := by
  rw [resolveRequest_ok_stale s req resp hm ha]

/-- A due debounce timer issues exactly one request, carrying the timer's
captured text and cursor. -/
theorem fireDebounceTimer_inFlight (s : LiveState) (tm : LiveTimer) (now : Nat)
    (ht : s.pendingTimer = some tm) (hd : tm.firesAt ≤ now) :
    (fireDebounceTimer s now).inFlight
      = s.inFlight ++ [⟨s.nextCtrlId, tm.text, tm.cursor⟩] := by
  unfold fireDebounceTimer
  rw [ht]
  dsimp only
  rw [if_pos hd]

theorem liveInv_init (uid : Option String) : LiveInv (initLiveState uid) := by
  refine ⟨?_, ?_, ?_, ?_, ?_⟩
  · intro r hr
    simp [initLiveState] at hr
  · intro c hc
    simp [initLiveState] at hc
  · intro i hi
    simp [initLiveState] at hi
  · intro r hr
    simp [initLiveState] at hr
  · intro hp
    simp [initLiveState] at hp

theorem liveInv_step (s : LiveState) (now : Nat) (a : LiveAction)
    (h : LiveInv s) : LiveInv (liveStepAt s now a) := by
  obtain ⟨h1, h2, h3, h4, h5⟩ := h
  cases a with
  | schedule text cursor =>
    show LiveInv (fetchLiveSuggestions s text cursor now)
    unfold fetchLiveSuggestions
    split
    · cases hc : s.abortCtrl with
      | none =>
        refine ⟨h1, ?_, ?_, ?_, ?_⟩
        · intro c2 hc2
          exact Option.noConfusion hc2
        · intro i hi
          rcases h3 i hi with hin | hctrl
          · exact Or.inl hin
          · rw [hc] at hctrl
            exact Option.noConfusion hctrl
        · intro r hr
          obtain ⟨c2, hcEq, _⟩ := h4 r hr
          rw [hc] at hcEq
          exact Option.noConfusion hcEq
        · intro _ c2 hc2
          exact Option.noConfusion hc2
      | some c =>
        refine ⟨h1, ?_, ?_, ?_, ?_⟩
        · intro c2 hc2
          cases hc2
          exact h2 c hc
        · intro i hi
          rcases h3 i hi with hin | hctrl
          · exact Or.inl (List.mem_cons_of_mem _ hin)
          · rw [hc] at hctrl
            injection hctrl with hci
            subst hci
            exact Or.inl (List.mem_cons_self _ _)
        · intro r hr
          obtain ⟨c2, hcEq, hle⟩ := h4 r hr
          rw [hc] at hcEq
          injection hcEq with hci
          exact ⟨c, rfl, by omega⟩
        · intro _ c2 hc2
          cases hc2
          exact List.mem_cons_self _ _
    · exact ⟨h1, h2, h3, h4, h5⟩
  | fire =>
    show LiveInv (fireDebounceTimer s now)
    cases ht : s.pendingTimer with
    | none =>
      have hstep : fireDebounceTimer s now = s := by
        unfold fireDebounceTimer
        rw [ht]
      rw [hstep]
      exact ⟨h1, h2, h3, h4, h5⟩
    | some t =>
      by_cases hd : t.firesAt ≤ now
      · have hstep : fireDebounceTimer s now
            = { s with
                pendingTimer := none
                isLoading := true
                abortCtrl := some s.nextCtrlId
                inFlight := s.inFlight ++ [⟨s.nextCtrlId, t.text, t.cursor⟩]
                nextCtrlId := s.nextCtrlId + 1 } := by
          unfold fireDebounceTimer
          rw [ht]
          dsimp only
          rw [if_pos hd]
        rw [hstep]
        refine ⟨?_, ?_, ?_, ?_, ?_⟩
        · intro r hr
          have hr2 : r ∈ s.inFlight ++ [(⟨s.nextCtrlId, t.text, t.cursor⟩ : LiveRequest)] := hr
          rcases List.mem_append.mp hr2 with hold | hnew
          · exact Nat.lt_succ_of_lt (h1 r hold)
          · have hr3 := List.mem_singleton.mp hnew
            rw [hr3]
            exact Nat.lt_succ_self _
        · intro c hc
          have hc2 : some s.nextCtrlId = some c := hc
          injection hc2 with hc3
          show c < s.nextCtrlId + 1
          omega
        · intro i hi
          have hi2 : i < s.nextCtrlId + 1 := hi
          by_cases hieq : i = s.nextCtrlId
          · exact Or.inr (by rw [hieq])
          · have hilt : i < s.nextCtrlId := by omega
            rcases h3 i hilt with hin | hctrl
            · exact Or.inl hin
            · refine Or.inl (h5 ?_ i hctrl)
              rw [ht]
              exact fun hcon => Option.noConfusion hcon
        · intro r hr
          have hr2 : r ∈ s.inFlight ++ [(⟨s.nextCtrlId, t.text, t.cursor⟩ : LiveRequest)] := hr
          rcases List.mem_append.mp hr2 with hold | hnew
          · exact ⟨s.nextCtrlId, rfl, Nat.le_of_lt (h1 r hold)⟩
          · have hr3 := List.mem_singleton.mp hnew
            refine ⟨s.nextCtrlId, rfl, ?_⟩
            rw [hr3]
        · intro hp
          exact (hp rfl).elim
      · have hstep : fireDebounceTimer s now = s := by
          unfold fireDebounceTimer
          rw [ht]
          dsimp only
          rw [if_neg hd]
        rw [hstep]
        exact ⟨h1, h2, h3, h4, h5⟩
  | resolve req outcome =>
    show LiveInv (resolveRequest s req outcome)
    unfold resolveRequest
    split
    · have herase : ∀ r, r ∈ s.inFlight.erase req → r ∈ s.inFlight :=
        fun r hr => List.mem_of_mem_erase hr
      cases outcome with
      | ok resp =>
        dsimp only
        split
        · exact ⟨fun r hr => h1 r (herase r hr), h2, h3,
            fun r hr => h4 r (herase r hr), h5⟩
        · exact ⟨fun r hr => h1 r (herase r hr), h2, h3,
            fun r hr => h4 r (herase r hr), h5⟩
      | abortError =>
        exact ⟨fun r hr => h1 r (herase r hr), h2, h3,
          fun r hr => h4 r (herase r hr), h5⟩
      | fail msg =>
        exact ⟨fun r hr => h1 r (herase r hr), h2, h3,
          fun r hr => h4 r (herase r hr), h5⟩
    · exact ⟨h1, h2, h3, h4, h5⟩

theorem liveInv_run (s : LiveState) (tr : List (Nat × LiveAction))
    (h : LiveInv s) : LiveInv (liveRun s tr) := by
  induction tr generalizing s with
  | nil => exact h
  | cons e rest ih => exact ih _ (liveInv_step s e.1 e.2 h)

/-- During a burst that never reaches the pending deadline, no request is
issued, the hook's identity fields are unchanged, and the pending timer is
the latest schedule call's (or the original one if the burst contains no
schedule call). -/
theorem liveRun_burst (tr : List (Nat × LiveAction)) :
    ∀ (s : LiveState) (x : String) (c : Option Nat) (d : Nat),
      jsTruthy s.userId = true →
      s.pendingTimer = some ⟨x, c, d⟩ →
      BurstFrom d tr = true →
      (liveRun s tr).inFlight = s.inFlight
      ∧ (liveRun s tr).nextCtrlId = s.nextCtrlId
      ∧ (liveRun s tr).userId = s.userId
      ∧ (liveRun s tr).pendingTimer =
          some (match lastScheduled tr with
            | none => (⟨x, c, d⟩ : LiveTimer)
            | some sc => ⟨sc.text, sc.cursor, sc.time + liveDebounceMs⟩) := by
  induction tr with
  | nil =>
    intro s x c d hu ht hb
    exact ⟨rfl, rfl, rfl, ht⟩
  | cons e rest ih =>
    intro s x c d hu ht hb
    obtain ⟨t, a⟩ := e
    cases a with
    | fire =>
      rw [show BurstFrom d ((t, LiveAction.fire) :: rest)
          = (decide (t < d) && BurstFrom d rest) from rfl] at hb
      rw [Bool.and_eq_true] at hb
      obtain ⟨htd, hb⟩ := hb
      have htd : t < d := of_decide_eq_true htd
      have hstep : liveStepAt s t LiveAction.fire = s := by
        show fireDebounceTimer s t = s
        unfold fireDebounceTimer
        rw [ht]
        dsimp only
        rw [if_neg (by omega)]
      have hrun : liveRun s ((t, LiveAction.fire) :: rest) = liveRun s rest := by
        show liveRun (liveStepAt s t LiveAction.fire) rest = liveRun s rest
        rw [hstep]
      rw [hrun]
      rw [show lastScheduled ((t, LiveAction.fire) :: rest) = lastScheduled rest from rfl]
      exact ih s x c d hu ht hb
    | schedule x2 c2 =>
      rw [show BurstFrom d ((t, LiveAction.schedule x2 c2) :: rest)
          = (decide (t < d) && BurstFrom (t + liveDebounceMs) rest) from rfl] at hb
      rw [Bool.and_eq_true] at hb
      obtain ⟨_, hb⟩ := hb
      have hfetch : fetchLiveSuggestions s x2 c2 t
          = { s with
              pendingTimer := some ⟨x2, c2, t + liveDebounceMs⟩
              abortedCtrls :=
                match s.abortCtrl with
                | some cc => cc :: s.abortedCtrls
                | none => s.abortedCtrls } := by
        unfold fetchLiveSuggestions
        rw [if_pos hu]
      have hrun : liveRun s ((t, LiveAction.schedule x2 c2) :: rest)
          = liveRun (fetchLiveSuggestions s x2 c2 t) rest := rfl
      obtain ⟨hif, hnx, hus, hpt⟩ :=
        ih (fetchLiveSuggestions s x2 c2 t) x2 c2 (t + liveDebounceMs)
          (by rw [hfetch]; exact hu) (by rw [hfetch]) hb
      refine ⟨?_, ?_, ?_, ?_⟩
      · rw [hrun, hif, hfetch]
      · rw [hrun, hnx, hfetch]
      · rw [hrun, hus, hfetch]
      · rw [hrun, hpt]
        rw [show lastScheduled ((t, LiveAction.schedule x2 c2) :: rest)
            = (match lastScheduled rest with
               | some r => some r
               | none => some ⟨x2, c2, t⟩) from rfl]
        cases lastScheduled rest with
        | none => rfl
        | some sc => rfl
    | resolve req outcome =>
      rw [show BurstFrom d ((t, LiveAction.resolve req outcome) :: rest)
          = false from rfl] at hb
      cases hb

end LiveHook

/-- Claim C1: on one live-hook context, of two requests the one issued later
wins.  In any reachable state with two outstanding requests `r1` (issued
first) and `r2` (issued later, not itself superseded), `r1`'s late response
is discarded — committing neither suggestions nor overlay visibility — and
the committed suggestion list is `r2`'s result, whichever wall-clock order
the two responses resolve in. -/
theorem c1_last_issued_wins
    (uid : Option String) (tr : List (Nat × LiveHook.LiveAction))
    (s : LiveHook.LiveState)
    (hs : s = LiveHook.liveRun (LiveHook.initLiveState uid) tr)
    (r1 r2 : LiveHook.LiveRequest) (resp1 resp2 : LiveHook.LiveResponse)
    (h1 : r1 ∈ s.inFlight) (h2 : r2 ∈ s.inFlight)
    (hlt : r1.ctrlId < r2.ctrlId)
    (hcur : r2.ctrlId ∉ s.abortedCtrls) :
    ((LiveHook.resolveRequest s r1 (LiveHook.LiveOutcome.ok resp1)).suggestions
        = s.suggestions
      ∧ (LiveHook.resolveRequest s r1 (LiveHook.LiveOutcome.ok resp1)).showSuggestions
        = s.showSuggestions)
    ∧ (LiveHook.resolveRequest
        (LiveHook.resolveRequest s r1 (LiveHook.LiveOutcome.ok resp1))
        r2 (LiveHook.LiveOutcome.ok resp2)).suggestions
        = resp2.suggestions.getD []
    ∧ (LiveHook.resolveRequest
        (LiveHook.resolveRequest s r2 (LiveHook.LiveOutcome.ok resp2))
        r1 (LiveHook.LiveOutcome.ok resp1)).suggestions
        = resp2.suggestions.getD [] := by
  have hInv : LiveHook.LiveInv s := by
    rw [hs]
    exact LiveHook.liveInv_run _ _ (LiveHook.liveInv_init uid)
  obtain ⟨I1, I2, I3, I4, I5⟩ := hInv
  have hne : r1 ≠ r2 := by
    intro hcon
    rw [hcon] at hlt
    exact lt_irrefl _ hlt
  have haborted : r1.ctrlId ∈ s.abortedCtrls := by
    obtain ⟨c, hcEq, hle⟩ := I4 r2 h2
    rcases I3 r1.ctrlId (I1 r1 h1) with hmem | hctrl
    · exact hmem
    · exfalso
      rw [hcEq] at hctrl
      injection hctrl with hc2
      omega
  have hstale1 := LiveHook.resolveRequest_ok_stale s r1 resp1 h1 haborted
  refine ⟨?_, ?_, ?_⟩
  · rw [hstale1]
    exact ⟨rfl, rfl⟩
  · rw [hstale1]
    have hm2 : r2 ∈ s.inFlight.erase r1 :=
      (List.mem_erase_of_ne hne.symm).mpr h2
    rw [LiveHook.resolveRequest_ok_current
      { s with inFlight := s.inFlight.erase r1, isLoading := false }
      r2 resp2 hm2 hcur]
  · rw [LiveHook.resolveRequest_ok_current s r2 resp2 h2 hcur]
    have hm1 : r1 ∈ s.inFlight.erase r2 :=
      (List.mem_erase_of_ne hne).mpr h1
    exact LiveHook.resolveRequest_stale_suggestions _ r1 resp1 hm1 haborted

/-- Witness for C1 on a concrete run: two requests outstanding, the first
superseded; resolving in either order commits the second one's items. -/
theorem c1_last_issued_wins_witness :
    LiveHook.firstRequest ∈ LiveHook.twoRequestState.inFlight
    ∧ LiveHook.secondRequest ∈ LiveHook.twoRequestState.inFlight
    ∧ LiveHook.firstRequest.ctrlId < LiveHook.secondRequest.ctrlId
    ∧ LiveHook.secondRequest.ctrlId ∉ LiveHook.twoRequestState.abortedCtrls
    ∧ (((LiveHook.resolveRequest LiveHook.twoRequestState LiveHook.firstRequest
          (LiveHook.LiveOutcome.ok ⟨some ["alpha"]⟩)).suggestions
            = LiveHook.twoRequestState.suggestions
        ∧ (LiveHook.resolveRequest LiveHook.twoRequestState LiveHook.firstRequest
          (LiveHook.LiveOutcome.ok ⟨some ["alpha"]⟩)).showSuggestions
            = LiveHook.twoRequestState.showSuggestions)
      ∧ (LiveHook.resolveRequest
          (LiveHook.resolveRequest LiveHook.twoRequestState LiveHook.firstRequest
            (LiveHook.LiveOutcome.ok ⟨some ["alpha"]⟩))
          LiveHook.secondRequest (LiveHook.LiveOutcome.ok ⟨some ["beta"]⟩)).suggestions
          = ["beta"]
      ∧ (LiveHook.resolveRequest
          (LiveHook.resolveRequest LiveHook.twoRequestState LiveHook.secondRequest
            (LiveHook.LiveOutcome.ok ⟨some ["beta"]⟩))
          LiveHook.firstRequest (LiveHook.LiveOutcome.ok ⟨some ["alpha"]⟩)).suggestions
          = ["beta"]) :=
  ⟨by decide, by decide, by decide, by decide,
    c1_last_issued_wins (some "u") LiveHook.twoRequestTrace LiveHook.twoRequestState rfl
      LiveHook.firstRequest LiveHook.secondRequest ⟨some ["alpha"]⟩ ⟨some ["beta"]⟩
      (by decide) (by decide) (by decide) (by decide)⟩

/-- Counterexample to C2 as stated: in the realtime hook the debounce timer
and the abort controller are shared across contexts.  Concretely, paragraph
A's pending 500 ms timer is cancelled (replaced) by scheduling paragraph B,
and firing B's request aborts A's still-outstanding request (controller 0). -/
theorem c2_contexts_not_independent_cex :
    (RealtimeHook.rtRun (RealtimeHook.initRTState (some "u") (some "sess"))
        [(0, RealtimeHook.RTAction.schedule "A" "Paragraph A text" none)]).pendingTimer
      = some ⟨"A", "Paragraph A text", none, 500⟩
    ∧ (RealtimeHook.rtRun (RealtimeHook.initRTState (some "u") (some "sess"))
        RealtimeHook.twoParagraphTimerTrace).pendingTimer
      = some ⟨"B", "Paragraph B text", none, 1100⟩
    ∧ (RealtimeHook.rtRun (RealtimeHook.initRTState (some "u") (some "sess"))
        RealtimeHook.twoParagraphAbortTrace).abortedCtrls = [0]
    ∧ (⟨0, "A", "Paragraph A text", none⟩ : RealtimeHook.RTRequest)
        ∈ (RealtimeHook.rtRun (RealtimeHook.initRTState (some "u") (some "sess"))
            RealtimeHook.twoParagraphAbortTrace).inFlight := by
  refine ⟨?_, ?_, ?_, ?_⟩ <;> decide

/-- Claim C2 as amended: isolation holds for the stored suggestion map only.
Resolving, accepting, rejecting or clearing suggestions for context B never
modifies context A's stored entry, and scheduling B touches no stored entry
at all; but the debounce timer (and abort controller) are shared, so
scheduling B installs B's timer in the single shared slot, replacing
whatever context's timer was pending there. -/
theorem c2_store_keyed_timer_shared
    (srt : RealtimeHook.RTState) (A B : String) (hAB : A ≠ B)
    (req : RealtimeHook.RTRequest) (outcome : RealtimeHook.RTOutcome)
    (idx now : Nat) (txt : String) (cur : Option Nat)
    (hreq : req.paragraphId = B)
    (htxt : jsTrim txt ≠ "")
    (hu : jsTruthy srt.userId = true)
    (hsess : jsTruthy srt.sessionId = true) :
    RealtimeHook.getSuggestions (RealtimeHook.resolveRequest srt req outcome now) A
      = RealtimeHook.getSuggestions srt A
    ∧ RealtimeHook.getSuggestions (RealtimeHook.acceptSuggestion srt B idx now) A
      = RealtimeHook.getSuggestions srt A
    ∧ RealtimeHook.getSuggestions (RealtimeHook.rejectSuggestion srt B idx) A
      = RealtimeHook.getSuggestions srt A
    ∧ RealtimeHook.getSuggestions (RealtimeHook.clearSuggestions srt B) A
      = RealtimeHook.getSuggestions srt A
    ∧ (RealtimeHook.fetchSuggestions srt B txt cur now).pendingTimer
      = some ⟨B, txt, cur, now + RealtimeHook.realtimeDebounceMs⟩
    ∧ (RealtimeHook.fetchSuggestions srt B txt cur now).suggestions
      = srt.suggestions := by
  have hBA : B ≠ A := Ne.symm hAB
  have hcond : (jsTrim txt == "" || !jsTruthy srt.userId || !jsTruthy srt.sessionId)
      = false := by
    rw [hu, hsess]
    simp [htxt]
  refine ⟨?_, ?_, ?_, ?_, ?_, ?_⟩
  · unfold RealtimeHook.resolveRequest
    by_cases hm : req ∈ srt.inFlight
    · rw [if_pos hm]
      cases outcome with
      | ok resp =>
        dsimp only
        by_cases ha : req.ctrlId ∈ srt.abortedCtrls
        · rw [if_pos ha]
          rfl
        · rw [if_neg ha]
          show RealtimeHook.getEntry
            (RealtimeHook.setEntry srt.suggestions req.paragraphId _) A
            = RealtimeHook.getEntry srt.suggestions A
          rw [hreq]
          exact RealtimeHook.getEntry_setEntry_ne _ B A _ hBA
      | abortError => rfl
      | fail msg =>
        show RealtimeHook.getEntry
          (RealtimeHook.setEntry srt.suggestions req.paragraphId _) A
          = RealtimeHook.getEntry srt.suggestions A
        rw [hreq]
        exact RealtimeHook.getEntry_setEntry_ne _ B A _ hBA
    · rw [if_neg hm]
  · unfold RealtimeHook.acceptSuggestion
    cases hge : RealtimeHook.getEntry srt.suggestions B with
    | none => rfl
    | some e =>
      show RealtimeHook.getEntry (RealtimeHook.setEntry srt.suggestions B _) A
        = RealtimeHook.getEntry srt.suggestions A
      exact RealtimeHook.getEntry_setEntry_ne _ B A _ hBA
  · unfold RealtimeHook.rejectSuggestion
    cases hge : RealtimeHook.getEntry srt.suggestions B with
    | none => rfl
    | some e =>
      show RealtimeHook.getEntry (RealtimeHook.setEntry srt.suggestions B _) A
        = RealtimeHook.getEntry srt.suggestions A
      exact RealtimeHook.getEntry_setEntry_ne _ B A _ hBA
  · exact RealtimeHook.getEntry_removeEntry_ne _ B A hBA
  · unfold RealtimeHook.fetchSuggestions
    rw [hcond]
    rfl
  · unfold RealtimeHook.fetchSuggestions
    rw [hcond]
    rfl

/-- Witness for the amended C2 at concrete inputs. -/
theorem c2_store_keyed_timer_shared_witness :
    ("p1" : String) ≠ "p2"
    ∧ (⟨3, "p2", "Other text", none⟩ : RealtimeHook.RTRequest).paragraphId = "p2"
    ∧ jsTrim "Hello paragraph" ≠ ""
    ∧ jsTruthy RealtimeHook.sampleState.userId = true
    ∧ jsTruthy RealtimeHook.sampleState.sessionId = true
    ∧ (RealtimeHook.getSuggestions
        (RealtimeHook.resolveRequest RealtimeHook.sampleState
          ⟨3, "p2", "Other text", none⟩ (RealtimeHook.RTOutcome.fail "boom") 50) "p1"
        = RealtimeHook.getSuggestions RealtimeHook.sampleState "p1"
      ∧ RealtimeHook.getSuggestions
          (RealtimeHook.acceptSuggestion RealtimeHook.sampleState "p2" 0 50) "p1"
          = RealtimeHook.getSuggestions RealtimeHook.sampleState "p1"
      ∧ RealtimeHook.getSuggestions
          (RealtimeHook.rejectSuggestion RealtimeHook.sampleState "p2" 0) "p1"
          = RealtimeHook.getSuggestions RealtimeHook.sampleState "p1"
      ∧ RealtimeHook.getSuggestions
          (RealtimeHook.clearSuggestions RealtimeHook.sampleState "p2") "p1"
          = RealtimeHook.getSuggestions RealtimeHook.sampleState "p1"
      ∧ (RealtimeHook.fetchSuggestions RealtimeHook.sampleState "p2" "Hello paragraph"
          none 50).pendingTimer
          = some ⟨"p2", "Hello paragraph", none, 550⟩
      ∧ (RealtimeHook.fetchSuggestions RealtimeHook.sampleState "p2" "Hello paragraph"
          none 50).suggestions = RealtimeHook.sampleState.suggestions) :=
  ⟨by decide, rfl, by decide, by decide, by decide,
    c2_store_keyed_timer_shared RealtimeHook.sampleState "p1" "p2" (by decide)
      ⟨3, "p2", "Other text", none⟩ (RealtimeHook.RTOutcome.fail "boom") 0 50
      "Hello paragraph" none rfl (by decide) (by decide) (by decide)⟩

/-- Claim C3: for any burst of schedule calls on the live hook in which each
call arrives before the previous call's 500 ms quiescence window elapses
(with any number of premature due-checks interleaved), no request is issued
during the burst, every earlier pending timer has been replaced by the last
call's timer, and firing at the final deadline issues exactly one request,
carrying the text and cursor of the last call. -/
theorem c3_debounce_last_call_wins
    (s0 : LiveHook.LiveState) (t1 : Nat) (x1 : String) (c1 : Option Nat)
    (tr : List (Nat × LiveHook.LiveAction))
    (hu : jsTruthy s0.userId = true)
    (hb : LiveHook.BurstFrom (t1 + LiveHook.liveDebounceMs) tr = true) :
    (LiveHook.liveRun s0 ((t1, LiveHook.LiveAction.schedule x1 c1) :: tr)).inFlight
      = s0.inFlight
    ∧ (LiveHook.liveRun s0 ((t1, LiveHook.LiveAction.schedule x1 c1) :: tr)).pendingTimer
      = some ⟨((LiveHook.lastScheduled tr).getD ⟨x1, c1, t1⟩).text,
              ((LiveHook.lastScheduled tr).getD ⟨x1, c1, t1⟩).cursor,
              ((LiveHook.lastScheduled tr).getD ⟨x1, c1, t1⟩).time + LiveHook.liveDebounceMs⟩
    ∧ (LiveHook.liveStepAt
        (LiveHook.liveRun s0 ((t1, LiveHook.LiveAction.schedule x1 c1) :: tr))
        (((LiveHook.lastScheduled tr).getD ⟨x1, c1, t1⟩).time + LiveHook.liveDebounceMs)
        LiveHook.LiveAction.fire).inFlight
      = s0.inFlight
        ++ [⟨(LiveHook.liveRun s0 ((t1, LiveHook.LiveAction.schedule x1 c1) :: tr)).nextCtrlId,
             ((LiveHook.lastScheduled tr).getD ⟨x1, c1, t1⟩).text,
             ((LiveHook.lastScheduled tr).getD ⟨x1, c1, t1⟩).cursor⟩] := by
  have hfetch : LiveHook.fetchLiveSuggestions s0 x1 c1 t1
      = { s0 with
          pendingTimer := some ⟨x1, c1, t1 + LiveHook.liveDebounceMs⟩
          abortedCtrls :=
            match s0.abortCtrl with
            | some cc => cc :: s0.abortedCtrls
            | none => s0.abortedCtrls } := by
    unfold LiveHook.fetchLiveSuggestions
    rw [if_pos hu]
  have hrun : LiveHook.liveRun s0 ((t1, LiveHook.LiveAction.schedule x1 c1) :: tr)
      = LiveHook.liveRun (LiveHook.fetchLiveSuggestions s0 x1 c1 t1) tr := rfl
  obtain ⟨hif, hnx, hus, hpt⟩ :=
    LiveHook.liveRun_burst tr (LiveHook.fetchLiveSuggestions s0 x1 c1 t1) x1 c1
      (t1 + LiveHook.liveDebounceMs) (by rw [hfetch]; exact hu) (by rw [hfetch]) hb
  have hptD : (LiveHook.liveRun (LiveHook.fetchLiveSuggestions s0 x1 c1 t1) tr).pendingTimer
      = some ⟨((LiveHook.lastScheduled tr).getD ⟨x1, c1, t1⟩).text,
              ((LiveHook.lastScheduled tr).getD ⟨x1, c1, t1⟩).cursor,
              ((LiveHook.lastScheduled tr).getD ⟨x1, c1, t1⟩).time + LiveHook.liveDebounceMs⟩ := by
    rw [hpt]
    cases LiveHook.lastScheduled tr with
    | none => rfl
    | some sc => rfl
  refine ⟨?_, ?_, ?_⟩
  · rw [hrun, hif, hfetch]
  · rw [hrun]
    exact hptD
  · rw [hrun]
    show (LiveHook.fireDebounceTimer
      (LiveHook.liveRun (LiveHook.fetchLiveSuggestions s0 x1 c1 t1) tr) _).inFlight = _
    unfold LiveHook.fireDebounceTimer
    rw [hptD]
    dsimp only
    rw [if_pos (Nat.le_refl _)]
    show (LiveHook.liveRun (LiveHook.fetchLiveSuggestions s0 x1 c1 t1) tr).inFlight ++ _ = _
    rw [hif, hfetch]

/-- Witness for C3 on a concrete burst of three schedule calls. -/
theorem c3_debounce_last_call_wins_witness :
    jsTruthy (LiveHook.initLiveState (some "u")).userId = true
    ∧ LiveHook.BurstFrom (0 + LiveHook.liveDebounceMs) LiveHook.burstTrace = true
    ∧ ((LiveHook.liveRun (LiveHook.initLiveState (some "u"))
          ((0, LiveHook.LiveAction.schedule "Hello" (some 6)) :: LiveHook.burstTrace)).inFlight
        = []
      ∧ (LiveHook.liveRun (LiveHook.initLiveState (some "u"))
          ((0, LiveHook.LiveAction.schedule "Hello" (some 6)) :: LiveHook.burstTrace)).pendingTimer
        = some ⟨"Hello wo", some 8, 900⟩
      ∧ (LiveHook.liveStepAt
          (LiveHook.liveRun (LiveHook.initLiveState (some "u"))
            ((0, LiveHook.LiveAction.schedule "Hello" (some 6)) :: LiveHook.burstTrace))
          900 LiveHook.LiveAction.fire).inFlight
        = [⟨0, "Hello wo", some 8⟩]) :=
  ⟨by decide, by decide,
    c3_debounce_last_call_wins (LiveHook.initLiveState (some "u")) 0 "Hello" (some 6)
      LiveHook.burstTrace (by decide) (by decide)⟩

/-- Counterexample to C4 as stated: issuing a new request calls `abort()` on
the prior controller, but the options handed to `fetch` never carry an
`AbortSignal` — the cancellation signal does not reach the network layer.
Concretely, after a request is issued and superseded, controller 0 is
aborted yet its transport call is still outstanding, and the fetch options
built for `/live_suggestions` contain no signal. -/
theorem c4_abort_never_reaches_transport_cex :
    (WritingAPI.getLiveSuggestions "x").signal = none
    ∧ (0 : Nat) ∈ (LiveHook.liveRun (LiveHook.initLiveState (some "u"))
        LiveHook.abortedButOutstandingTrace).abortedCtrls
    ∧ LiveHook.firstRequest ∈ (LiveHook.liveRun (LiveHook.initLiveState (some "u"))
        LiveHook.abortedButOutstandingTrace).inFlight := by
  refine ⟨rfl, ?_, ?_⟩ <;> decide

/-- Claim C4 as amended: issuing a new request calls `abort()` on the prior
request's controller, but since the controller's signal is never attached to
the fetch options, the underlying transport call is not cancelled; only the
prior response's effect on shared state is suppressed, by the post-response
aborted check. -/
theorem c4_abort_suppresses_state_only (body : String) (s s2 : LiveHook.LiveState)
    (req : LiveHook.LiveRequest) (resp : LiveHook.LiveResponse)
    (text : String) (cur : Option Nat) (now c : Nat)
    (h1 : req ∈ s.inFlight) (h2 : req.ctrlId ∈ s.abortedCtrls)
    (h3 : jsTruthy s2.userId = true) (h4 : s2.abortCtrl = some c) :
    (WritingAPI.getLiveSuggestions body).signal = none
    ∧ c ∈ (LiveHook.fetchLiveSuggestions s2 text cur now).abortedCtrls
    ∧ (LiveHook.resolveRequest s req (LiveHook.LiveOutcome.ok resp)).suggestions
      = s.suggestions
    ∧ (LiveHook.resolveRequest s req (LiveHook.LiveOutcome.ok resp)).showSuggestions
      = s.showSuggestions
    ∧ (LiveHook.resolveRequest s req (LiveHook.LiveOutcome.ok resp)).selectedSuggestionIndex
      = s.selectedSuggestionIndex := by
  have hstale := LiveHook.resolveRequest_ok_stale s req resp h1 h2
  refine ⟨rfl, ?_, ?_, ?_, ?_⟩
  · unfold LiveHook.fetchLiveSuggestions
    rw [if_pos h3]
    show c ∈ (match s2.abortCtrl with
      | some cc => cc :: s2.abortedCtrls
      | none => s2.abortedCtrls)
    rw [h4]
    exact List.mem_cons_self _ _
  · rw [hstale]
  · rw [hstale]
  · rw [hstale]

/-- Witness for the amended C4 at concrete inputs. -/
theorem c4_abort_suppresses_state_only_witness :
    LiveHook.firstRequest ∈ LiveHook.twoRequestState.inFlight
    ∧ LiveHook.firstRequest.ctrlId ∈ LiveHook.twoRequestState.abortedCtrls
    ∧ jsTruthy LiveHook.twoRequestState.userId = true
    ∧ LiveHook.twoRequestState.abortCtrl = some 1
    ∧ ((WritingAPI.getLiveSuggestions "x").signal = none
      ∧ 1 ∈ (LiveHook.fetchLiveSuggestions LiveHook.twoRequestState "more" none
          1200).abortedCtrls
      ∧ (LiveHook.resolveRequest LiveHook.twoRequestState LiveHook.firstRequest
          (LiveHook.LiveOutcome.ok ⟨some ["alpha"]⟩)).suggestions
        = LiveHook.twoRequestState.suggestions
      ∧ (LiveHook.resolveRequest LiveHook.twoRequestState LiveHook.firstRequest
          (LiveHook.LiveOutcome.ok ⟨some ["alpha"]⟩)).showSuggestions
        = LiveHook.twoRequestState.showSuggestions
      ∧ (LiveHook.resolveRequest LiveHook.twoRequestState LiveHook.firstRequest
          (LiveHook.LiveOutcome.ok ⟨some ["alpha"]⟩)).selectedSuggestionIndex
        = LiveHook.twoRequestState.selectedSuggestionIndex) :=
  ⟨by decide, by decide, by decide, by decide,
    c4_abort_suppresses_state_only "x" LiveHook.twoRequestState LiveHook.twoRequestState
      LiveHook.firstRequest ⟨some ["alpha"]⟩ "more" none 1200 1
      (by decide) (by decide) (by decide) (by decide)⟩

/-- Counterexample to C5 as stated: in the realtime hook, accept(0) on a
stored one-item set marks the entry accepted but leaves it stored with its
items — `store.get(contextId)` is not Idle/empty afterwards. -/
theorem c5_accept_does_not_clear_cex :
    (RealtimeHook.getSuggestions
        (RealtimeHook.acceptSuggestion RealtimeHook.sampleState "p1" 0 100) "p1").map
      RealtimeHook.ParaEntry.suggestions = some ["alpha"]
    ∧ (RealtimeHook.getSuggestions
        (RealtimeHook.acceptSuggestion RealtimeHook.sampleState "p1" 0 100) "p1").map
      RealtimeHook.ParaEntry.suggestions ≠ some [] := by
  refine ⟨?_, ?_⟩ <;> decide

/-- Claim C5 as amended: in the live hook, accept(index) returns the item
and clears the set (empty items, hidden overlay) exactly when the index —
or the default selected index — denotes an existing non-empty item, and
returns null leaving the state unchanged otherwise (index out of range, or
the indexed item the falsy empty string); in the realtime hook,
accept(paragraphId, index) stores an accepted marker on the entry and does
not clear it. -/
theorem c5_accept_contract (s : LiveHook.LiveState) (index : Option Nat)
    (sugg : String) (srt : RealtimeHook.RTState) (p : String)
    (e : RealtimeHook.ParaEntry) (i now : Nat)
    (h1 : s.suggestions[index.getD s.selectedSuggestionIndex]? = some sugg)
    (h2 : sugg ≠ "")
    (h3 : RealtimeHook.getSuggestions srt p = some e) :
    (LiveHook.acceptSuggestion s index).1 = some sugg
    ∧ (LiveHook.acceptSuggestion s index).2.suggestions = []
    ∧ (LiveHook.acceptSuggestion s index).2.showSuggestions = false
    ∧ (∀ (s2 : LiveHook.LiveState) (index2 : Option Nat),
        s2.suggestions[index2.getD s2.selectedSuggestionIndex]? = none →
        LiveHook.acceptSuggestion s2 index2 = (none, s2))
    ∧ (∀ (s2 : LiveHook.LiveState) (index2 : Option Nat),
        s2.suggestions[index2.getD s2.selectedSuggestionIndex]? = some "" →
        LiveHook.acceptSuggestion s2 index2 = (none, s2))
    ∧ RealtimeHook.getSuggestions (RealtimeHook.acceptSuggestion srt p i now) p
      = some { e with acceptedSuggestion := some i, acceptedAt := some now } := by
  have hsb : (sugg == "") = false := beq_eq_false_iff_ne.mpr h2
  have hacc : LiveHook.acceptSuggestion s index
      = (some sugg, LiveHook.hideSuggestions s) := by
    unfold LiveHook.acceptSuggestion
    dsimp only
    rw [h1]
    dsimp only
    rw [if_neg (by simp [hsb])]
  have hmiss : ∀ (s2 : LiveHook.LiveState) (index2 : Option Nat),
      s2.suggestions[index2.getD s2.selectedSuggestionIndex]? = none →
      LiveHook.acceptSuggestion s2 index2 = (none, s2) := by
    intro s2 index2 hnone
    unfold LiveHook.acceptSuggestion
    dsimp only
    rw [hnone]
  have hfalsy : ∀ (s2 : LiveHook.LiveState) (index2 : Option Nat),
      s2.suggestions[index2.getD s2.selectedSuggestionIndex]? = some "" →
      LiveHook.acceptSuggestion s2 index2 = (none, s2) := by
    intro s2 index2 hempty
    unfold LiveHook.acceptSuggestion
    dsimp only
    rw [hempty]
    dsimp only
    rw [if_pos (by decide : (("" : String) == "") = true)]
  have h3e : RealtimeHook.getEntry srt.suggestions p = some e := h3
  refine ⟨by rw [hacc], by rw [hacc]; rfl, by rw [hacc]; rfl, hmiss, hfalsy, ?_⟩
  unfold RealtimeHook.acceptSuggestion
  rw [h3e]
  dsimp only
  show RealtimeHook.getEntry (RealtimeHook.setEntry srt.suggestions p _) p = some _
  exact RealtimeHook.getEntry_setEntry_self _ _ _

/-- Witness for the amended C5 at concrete inputs. -/
theorem c5_accept_contract_witness :
    LiveHook.acceptState.suggestions[(none : Option Nat).getD
      LiveHook.acceptState.selectedSuggestionIndex]? = some "beta"
    ∧ ("beta" : String) ≠ ""
    ∧ RealtimeHook.getSuggestions RealtimeHook.sampleState "p1"
      = some RealtimeHook.sampleEntry
    ∧ ((LiveHook.acceptSuggestion LiveHook.acceptState none).1 = some "beta"
      ∧ (LiveHook.acceptSuggestion LiveHook.acceptState none).2.suggestions = []
      ∧ (LiveHook.acceptSuggestion LiveHook.acceptState none).2.showSuggestions = false
      ∧ (∀ (s2 : LiveHook.LiveState) (index2 : Option Nat),
          s2.suggestions[index2.getD s2.selectedSuggestionIndex]? = none →
          LiveHook.acceptSuggestion s2 index2 = (none, s2))
      ∧ (∀ (s2 : LiveHook.LiveState) (index2 : Option Nat),
          s2.suggestions[index2.getD s2.selectedSuggestionIndex]? = some "" →
          LiveHook.acceptSuggestion s2 index2 = (none, s2))
      ∧ RealtimeHook.getSuggestions
          (RealtimeHook.acceptSuggestion RealtimeHook.sampleState "p1" 2 300) "p1"
        = some { RealtimeHook.sampleEntry with
            acceptedSuggestion := some 2, acceptedAt := some 300 }) :=
  ⟨by decide, by decide, by decide,
    c5_accept_contract LiveHook.acceptState none "beta" RealtimeHook.sampleState "p1"
      RealtimeHook.sampleEntry 2 300 (by decide) (by decide) (by decide)⟩

/-- Claim C6: on a non-empty N-item list with selected index i, navigate
next (`down`) maps i to i+1 for i < N−1 and N−1 to 0, and navigate previous
(`up`) maps i to i−1 for i > 0 and 0 to N−1. -/
theorem c6_navigate_wraparound (s : LiveHook.LiveState) (N i : Nat)
    (hN : s.suggestions.length = N) (hpos : 0 < N)
    (hi : s.selectedSuggestionIndex = i) (_hiN : i < N) :
    ((LiveHook.navigateSuggestions s "down").selectedSuggestionIndex
      = if i < N - 1 then i + 1 else 0)
    ∧ ((LiveHook.navigateSuggestions s "up").selectedSuggestionIndex
      = if 0 < i then i - 1 else N - 1) := by
  have hne : s.suggestions.length ≠ 0 := by
    rw [hN]
    omega
  constructor
  · unfold LiveHook.navigateSuggestions
    rw [if_neg hne, if_neg (by decide : ¬("down" : String) = "up"), if_pos rfl]
    show (if s.selectedSuggestionIndex < s.suggestions.length - 1 then
        s.selectedSuggestionIndex + 1 else 0) = _
    rw [hi, hN]
  · unfold LiveHook.navigateSuggestions
    rw [if_neg hne, if_pos rfl]
    show (if 0 < s.selectedSuggestionIndex then s.selectedSuggestionIndex - 1
        else s.suggestions.length - 1) = _
    rw [hi, hN]

/-- Witness for C6: the claim's own example, N = 3 and selected index 0 —
next selects 1, previous wraps to 2. -/
theorem c6_navigate_wraparound_witness :
    LiveHook.navState.suggestions.length = 3
    ∧ 0 < 3
    ∧ LiveHook.navState.selectedSuggestionIndex = 0
    ∧ 0 < 3
    ∧ ((LiveHook.navigateSuggestions LiveHook.navState "down").selectedSuggestionIndex = 1
      ∧ (LiveHook.navigateSuggestions LiveHook.navState "up").selectedSuggestionIndex = 2) :=
  ⟨by decide, by decide, by decide, by decide,
    c6_navigate_wraparound LiveHook.navState 3 0 (by decide) (by decide) (by decide)
      (by decide)⟩

/-- Claim C7: the live editor's onUpdate gate issues no fetch for text whose
trimmed length is below 3 (which covers empty and whitespace-only text) —
in particular "Hi" triggers nothing — while "Hi!" schedules a fetch whose
timer, fired once the 500 ms window elapses, issues exactly one request. -/
theorem c7_min_length_gate (s : LiveHook.LiveState) (c now : Nat)
    (hu : jsTruthy s.userId = true) :
    (∀ text : String, (jsTrim text).length < 3 →
      EditorMerge.editorOnUpdate s text c now = s)
    ∧ EditorMerge.editorOnUpdate s "Hi" c now = s
    ∧ (EditorMerge.editorOnUpdate s "Hi!" c now).pendingTimer
      = some ⟨"Hi!", some c, now + LiveHook.liveDebounceMs⟩
    ∧ (EditorMerge.editorOnUpdate s "Hi!" c now).inFlight = s.inFlight
    ∧ (LiveHook.liveStepAt (EditorMerge.editorOnUpdate s "Hi!" c now)
        (now + LiveHook.liveDebounceMs) LiveHook.LiveAction.fire).inFlight
      = s.inFlight ++ [⟨s.nextCtrlId, "Hi!", some c⟩] := by
  have hgate : ∀ text : String, (jsTrim text).length < 3 →
      EditorMerge.editorOnUpdate s text c now = s := by
    intro text hlen
    unfold EditorMerge.editorOnUpdate
    have hd : decide (2 < (jsTrim text).length) = false := by
      rw [decide_eq_false_iff_not]
      omega
    rw [hd]
    rfl
  have hfetchEq : EditorMerge.editorOnUpdate s "Hi!" c now
      = LiveHook.fetchLiveSuggestions s "Hi!" (some c) now := by
    unfold EditorMerge.editorOnUpdate
    rw [hu, show decide (2 < (jsTrim "Hi!").length) = true from by decide]
    rfl
  have hfetch : LiveHook.fetchLiveSuggestions s "Hi!" (some c) now
      = { s with
          pendingTimer := some ⟨"Hi!", some c, now + LiveHook.liveDebounceMs⟩
          abortedCtrls :=
            match s.abortCtrl with
            | some cc => cc :: s.abortedCtrls
            | none => s.abortedCtrls } := by
    unfold LiveHook.fetchLiveSuggestions
    rw [if_pos hu]
  have hpt : (EditorMerge.editorOnUpdate s "Hi!" c now).pendingTimer
      = some ⟨"Hi!", some c, now + LiveHook.liveDebounceMs⟩ := by
    rw [hfetchEq, hfetch]
  refine ⟨hgate, hgate "Hi" (by decide), hpt, by rw [hfetchEq, hfetch], ?_⟩
  show (LiveHook.fireDebounceTimer (EditorMerge.editorOnUpdate s "Hi!" c now)
    (now + LiveHook.liveDebounceMs)).inFlight = _
  rw [LiveHook.fireDebounceTimer_inFlight _ ⟨"Hi!", some c, now + LiveHook.liveDebounceMs⟩
    _ hpt (Nat.le_refl _)]
  rw [hfetchEq, hfetch]

/-- Witness for C7 at concrete inputs. -/
theorem c7_min_length_gate_witness :
    jsTruthy (LiveHook.initLiveState (some "demo-user")).userId = true
    ∧ ((∀ text : String, (jsTrim text).length < 3 →
        EditorMerge.editorOnUpdate (LiveHook.initLiveState (some "demo-user")) text 5 0
          = LiveHook.initLiveState (some "demo-user"))
      ∧ EditorMerge.editorOnUpdate (LiveHook.initLiveState (some "demo-user")) "Hi" 5 0
        = LiveHook.initLiveState (some "demo-user")
      ∧ (EditorMerge.editorOnUpdate (LiveHook.initLiveState (some "demo-user"))
          "Hi!" 5 0).pendingTimer = some ⟨"Hi!", some 5, 500⟩
      ∧ (EditorMerge.editorOnUpdate (LiveHook.initLiveState (some "demo-user"))
          "Hi!" 5 0).inFlight = []
      ∧ (LiveHook.liveStepAt
          (EditorMerge.editorOnUpdate (LiveHook.initLiveState (some "demo-user")) "Hi!" 5 0)
          500 LiveHook.LiveAction.fire).inFlight = [⟨0, "Hi!", some 5⟩]) :=
  ⟨by decide,
    c7_min_length_gate (LiveHook.initLiveState (some "demo-user")) 5 0 (by decide)⟩

/-- Counterexample to C8 as stated: the code tests `endsWith(" ")` — a space
character — not "ends in whitespace".  For a target ending in a newline
(whitespace, but not a space) the code still inserts a separating space,
while the claimed rule would insert none. -/
theorem c8_space_iff_whitespace_cex :
    EditorMerge.endsInWhitespace "Wait\n" = true
    ∧ EditorMerge.applyAccepted "continue" "Wait\n" = "Wait\n continue"
    ∧ EditorMerge.applySpec "continue" "Wait\n" = "Wait\ncontinue"
    ∧ EditorMerge.applyAccepted "continue" "Wait\n"
      ≠ EditorMerge.applySpec "continue" "Wait\n" := by
  refine ⟨?_, ?_, ?_, ?_⟩ <;> decide

/-- Claim C8 as amended: apply appends the item's text to the target text,
inserting exactly one separating space iff the target is non-empty and does
not already end in a space character (a target ending in other whitespace,
such as a newline, still receives a space); the two spec examples hold as
stated. -/
theorem c8_apply_merge (item t : String) :
    EditorMerge.applyAccepted "continue the story" "The door creaked"
      = "The door creaked continue the story"
    ∧ EditorMerge.applyAccepted "continue" "Wait " = "Wait continue"
    ∧ EditorMerge.applyAccepted item t
      = (if 0 < t.length ∧ endsWithSpace t = false then t ++ " " ++ item
         else t ++ item) := by
  refine ⟨by decide, by decide, ?_⟩
  unfold EditorMerge.applyAccepted
  dsimp only
  by_cases h1 : 0 < t.length
  · by_cases h2 : endsWithSpace t = true
    · have hns : (decide (0 < t.length) && !endsWithSpace t) = false := by
        rw [h2]
        simp
      rw [hns]
      rw [if_neg (by simp : ¬((false : Bool) = true))]
      rw [String.append_empty]
      rw [if_neg (by simp [h2] : ¬(0 < t.length ∧ endsWithSpace t = false))]
    · have h2f : endsWithSpace t = false := by
        cases hv : endsWithSpace t
        · rfl
        · exact absurd hv h2
      have hns : (decide (0 < t.length) && !endsWithSpace t) = true := by
        rw [h2f, decide_eq_true h1]
        rfl
      rw [hns]
      rw [if_pos (rfl : (true : Bool) = true)]
      rw [if_pos (⟨h1, h2f⟩ : 0 < t.length ∧ endsWithSpace t = false)]
  · have hns : (decide (0 < t.length) && !endsWithSpace t) = false := by
      rw [decide_eq_false h1]
      rfl
    rw [hns]
    rw [if_neg (by simp : ¬((false : Bool) = true))]
    rw [String.append_empty]
    rw [if_neg (fun hcon => h1 hcon.1)]

/-- Claim C9: a transport failure of an outstanding realtime request is
converted — inside the total resolution handler, never re-thrown — into an
error state whose stored entry for that context has an empty suggestion
list; an abort resolution (superseded controller on success, or an
AbortError rejection) is absorbed silently, with no error set and the store
untouched. -/
theorem c9_failure_handling (srt : RealtimeHook.RTState)
    (req : RealtimeHook.RTRequest) (message : String)
    (resp : RealtimeHook.EnhancedResponse) (now : Nat)
    (hm : req ∈ srt.inFlight) :
    (RealtimeHook.resolveRequest srt req (RealtimeHook.RTOutcome.fail message) now).error
      = some message
    ∧ RealtimeHook.getSuggestions
        (RealtimeHook.resolveRequest srt req (RealtimeHook.RTOutcome.fail message) now)
        req.paragraphId
      = some (RealtimeHook.failureEntry message now)
    ∧ (RealtimeHook.failureEntry message now).suggestions = []
    ∧ (RealtimeHook.resolveRequest srt req RealtimeHook.RTOutcome.abortError now).error
      = srt.error
    ∧ (RealtimeHook.resolveRequest srt req RealtimeHook.RTOutcome.abortError now).suggestions
      = srt.suggestions
    ∧ (req.ctrlId ∈ srt.abortedCtrls →
        (RealtimeHook.resolveRequest srt req (RealtimeHook.RTOutcome.ok resp) now).error
          = srt.error
        ∧ (RealtimeHook.resolveRequest srt req (RealtimeHook.RTOutcome.ok resp) now).suggestions
          = srt.suggestions) := by
  refine ⟨?_, ?_, rfl, ?_, ?_, ?_⟩
  · unfold RealtimeHook.resolveRequest
    rw [if_pos hm]
  · unfold RealtimeHook.resolveRequest
    rw [if_pos hm]
    show RealtimeHook.getEntry
      (RealtimeHook.setEntry srt.suggestions req.paragraphId _) req.paragraphId = some _
    exact RealtimeHook.getEntry_setEntry_self _ _ _
  · unfold RealtimeHook.resolveRequest
    rw [if_pos hm]
  · unfold RealtimeHook.resolveRequest
    rw [if_pos hm]
  · intro ha
    constructor
    · unfold RealtimeHook.resolveRequest
      rw [if_pos hm]
      dsimp only
      rw [if_pos ha]
    · unfold RealtimeHook.resolveRequest
      rw [if_pos hm]
      dsimp only
      rw [if_pos ha]

/-- Witness for C9 at concrete inputs. -/
theorem c9_failure_handling_witness :
    (⟨0, "p1", "Some paragraph", none⟩ : RealtimeHook.RTRequest)
      ∈ RealtimeHook.inFlightState.inFlight
    ∧ ((RealtimeHook.resolveRequest RealtimeHook.inFlightState
          ⟨0, "p1", "Some paragraph", none⟩ (RealtimeHook.RTOutcome.fail "boom") 42).error
        = some "boom"
      ∧ RealtimeHook.getSuggestions
          (RealtimeHook.resolveRequest RealtimeHook.inFlightState
            ⟨0, "p1", "Some paragraph", none⟩ (RealtimeHook.RTOutcome.fail "boom") 42) "p1"
        = some (RealtimeHook.failureEntry "boom" 42)
      ∧ (RealtimeHook.failureEntry "boom" 42).suggestions = []
      ∧ (RealtimeHook.resolveRequest RealtimeHook.inFlightState
          ⟨0, "p1", "Some paragraph", none⟩ RealtimeHook.RTOutcome.abortError 42).error
        = RealtimeHook.inFlightState.error
      ∧ (RealtimeHook.resolveRequest RealtimeHook.inFlightState
          ⟨0, "p1", "Some paragraph", none⟩ RealtimeHook.RTOutcome.abortError 42).suggestions
        = RealtimeHook.inFlightState.suggestions
      ∧ ((0 : Nat) ∈ RealtimeHook.inFlightState.abortedCtrls →
          (RealtimeHook.resolveRequest RealtimeHook.inFlightState
            ⟨0, "p1", "Some paragraph", none⟩
            (RealtimeHook.RTOutcome.ok ⟨some ["x"], none, none, none, none⟩) 42).error
            = RealtimeHook.inFlightState.error
          ∧ (RealtimeHook.resolveRequest RealtimeHook.inFlightState
              ⟨0, "p1", "Some paragraph", none⟩
              (RealtimeHook.RTOutcome.ok ⟨some ["x"], none, none, none, none⟩) 42).suggestions
            = RealtimeHook.inFlightState.suggestions)) :=
  ⟨by decide,
    c9_failure_handling RealtimeHook.inFlightState ⟨0, "p1", "Some paragraph", none⟩
      "boom" ⟨some ["x"], none, none, none, none⟩ 42 (by decide)⟩

/-- Claim C10 (implicit): on the concrete interleaving in which a superseded
request resolves while the newer request for the same context is still
outstanding, the stale response commits nothing (no suggestions, overlay
hidden) but its `finally` clause clears `isLoading` — so `isLoading` reads
false even though a request is still in flight. -/
theorem c10_stale_resolution_clears_loading :
    (LiveHook.liveRun (LiveHook.initLiveState (some "u"))
        LiveHook.staleResolveTrace).isLoading = false
    ∧ (LiveHook.liveRun (LiveHook.initLiveState (some "u"))
        LiveHook.staleResolveTrace).inFlight = [LiveHook.secondRequest]
    ∧ (LiveHook.liveRun (LiveHook.initLiveState (some "u"))
        LiveHook.staleResolveTrace).suggestions = []
    ∧ (LiveHook.liveRun (LiveHook.initLiveState (some "u"))
        LiveHook.staleResolveTrace).showSuggestions = false := by
  refine ⟨?_, ?_, ?_, ?_⟩ <;> decide

end Stella
